import Mathlib

/-!
Shallow embedding of the `hpm` command-line utility (Rust sources
`src/process.rs`, `src/main.rs`, `src/cli.rs`) for checking its
natural-language specification.

The host operating system is modelled as an oracle (`Host`): a predicate
saying which executable names resolve on the search path (`which::which`)
and a function from a command specification to the outcome of spawning it
(`std::process::Command::output`).  Byte streams are `List Nat` with each
element below 256; exit codes are `Int` (Rust `i32`), and the `as u8`
truncation is taken explicitly modulo 256.
-/

/-- Models `std::process::Command`: an executable name plus its ordered
argument list (spec name: CommandSpec). -/
structure CommandSpec where
  program : String
  args : List String
deriving DecidableEq, Repr

/-- Models `std::process::Output`: the termination status of a finished
child process (`code = none` when terminated by a signal, mirroring
`ExitStatus::code()` returning `None`) plus the captured stdout and
stderr byte streams. -/
structure Output where
  code : Option Int
  stdout : List Nat
  stderr : List Nat
deriving DecidableEq, Repr

/-- Outcome of `Command::output()`: either a finished process, or an
OS-level spawn failure (`std::io::Error`, modelled by its display text). -/
inductive SpawnResult where
  | ok (out : Output)
  | ioError (msg : String)
deriving DecidableEq, Repr

/-- The host OS oracle: `resolves` models a successful `which::which`
lookup of an executable name; `spawn` models what `Command::output()`
returns for a given command specification. -/
structure Host where
  resolves : String → Bool
  spawn : CommandSpec → SpawnResult

namespace Hpm

/-- Escapes one character the way Rust's `Debug` formatting of a string
does for quote and backslash (the executable names in this program are
plain ASCII words, so no further escapes are exercised). -/
def escapeDebugChar (c : Char) : String :=
  if c = '"' then "\\\"" else if c = '\\' then "\\\\" else String.singleton c

/-- Models Rust `{:?}` formatting of an `OsString`: the text wrapped in
double quotes, with quote and backslash escaped. -/
def rustDebug (s : String) : String :=
  "\"" ++ String.join (s.data.map escapeDebugChar) ++ "\""

/-- Strict UTF-8 decoding of a byte stream into its code points, exactly
the validation performed by Rust's `String::from_utf8`: rejects
continuation bytes in lead position, overlong encodings (`C0`/`C1`,
`E0 80..9F`, `F0 80..8F`), surrogates (`ED A0..BF`) and code points above
`U+10FFFF` (`F5..FF`, `F4 90..BF`). -/
def utf8Decode : List Nat → Option (List Nat)
  | [] => some []
  | b0 :: rest =>
    if b0 < 0x80 then
      (utf8Decode rest).map (fun cs => b0 :: cs)
    else if b0 < 0xC2 then none
    else if b0 < 0xE0 then
      match rest with
      | b1 :: rest2 =>
        if 0x80 ≤ b1 ∧ b1 < 0xC0 then
          (utf8Decode rest2).map (fun cs => ((b0 - 0xC0) * 64 + (b1 - 0x80)) :: cs)
        else none
      | [] => none
    else if b0 < 0xF0 then
      match rest with
      | b1 :: b2 :: rest3 =>
        if (if b0 = 0xE0 then 0xA0 ≤ b1 ∧ b1 < 0xC0
            else if b0 = 0xED then 0x80 ≤ b1 ∧ b1 < 0xA0
            else 0x80 ≤ b1 ∧ b1 < 0xC0) ∧ 0x80 ≤ b2 ∧ b2 < 0xC0 then
          (utf8Decode rest3).map
            (fun cs => ((b0 - 0xE0) * 4096 + (b1 - 0x80) * 64 + (b2 - 0x80)) :: cs)
        else none
      | _ => none
    else if b0 < 0xF5 then
      match rest with
      | b1 :: b2 :: b3 :: rest4 =>
        if (if b0 = 0xF0 then 0x90 ≤ b1 ∧ b1 < 0xC0
            else if b0 = 0xF4 then 0x80 ≤ b1 ∧ b1 < 0x90
            else 0x80 ≤ b1 ∧ b1 < 0xC0) ∧
           (0x80 ≤ b2 ∧ b2 < 0xC0) ∧ (0x80 ≤ b3 ∧ b3 < 0xC0) then
          (utf8Decode rest4).map
            (fun cs => ((b0 - 0xF0) * 262144 + (b1 - 0x80) * 4096 +
                        (b2 - 0x80) * 64 + (b3 - 0x80)) :: cs)
        else none
      | _ => none
    else none

/-- Models `String::from_utf8(v)`: `some` of the decoded text when the
bytes are valid UTF-8, `none` when they are not (in the source the
`none` case becomes the `.expect(...)` panic). -/
def utf8DecodeStr (v : List Nat) : Option String :=
  (utf8Decode v).map (fun cs => String.mk (cs.map Char.ofNat))

/-- Models `hpm::process::Error` (src/process.rs lines 27-52).  The
`std::io::Error` payload of `FailedToExecProcess` is modelled by its
display text; the `u8` exit code of `Exec` is a `Nat` below 256. -/
inductive Error where
  | BinaryDoesNotExist (binary : String)
  | FailedToExecProcess (binary : String) (ioErr : String)
  | Exec (ecode : Nat) (stderr : List Nat)
  | Interrupted
deriving DecidableEq, Repr

/-- Models `impl Display for Error` (src/process.rs lines 55-75).  The
result is `none` exactly when the formatting path panics: the `Exec`
branch calls `String::from_utf8(..).expect(..)` on the captured stderr
bytes, which is a hard failure on non-UTF-8 input. -/
def Error.display : Error → Option String
  | .BinaryDoesNotExist binary =>
      some ("the binary does not exist: " ++ rustDebug binary)
  | .FailedToExecProcess binary ioErr =>
      some ("failed to execute the binary " ++ rustDebug binary ++ ": " ++ ioErr)
  | .Exec _ v => utf8DecodeStr v
  | .Interrupted => some "interrupted by the host"

/-- Models `hpm::process::Process` (src/process.rs line 89): a wrapper
owning one `std::process::Command`. -/
structure Process where
  cmd : CommandSpec
deriving DecidableEq, Repr

/-- Models `Process::get_process_name` (src/process.rs lines 97-99). -/
def Process.get_process_name (p : Process) : String :=
  p.cmd.program

/-- Models `Process::validate` (src/process.rs lines 101-106): a
`which::which` lookup of the program name, failure mapped to
`BinaryDoesNotExist`. -/
def Process.validate (host : Host) (p : Process) : Except Error Unit :=
  if host.resolves p.get_process_name then .ok ()
  else .error (.BinaryDoesNotExist p.get_process_name)

/-- Models `Process::exec` (src/process.rs lines 130-145), additionally
returning how many OS-level child processes were spawned (0 or 1), so
that "no process is spawned" is stated in the embedding.  Mirrors the
source order: validate, then `output()` (the spawn), then
`status.code().ok_or(Interrupted)? as u8`, then the `status.success()`
test (which holds exactly when the code is `Some(0)`). -/
def Process.execT (host : Host) (p : Process) : Except Error (List Nat) × Nat :=
  match p.validate host with
  | .error e => (.error e, 0)
  | .ok _ =>
    match host.spawn p.cmd with
    | .ioError err => (.error (.FailedToExecProcess p.get_process_name err), 1)
    | .ok out =>
      match out.code with
      | none => (.error .Interrupted, 1)
      | some c =>
        if c = 0 then (.ok out.stdout, 1)
        else (.error (.Exec (c.emod 256).toNat out.stderr), 1)

/-- The result component of `Process::exec`. -/
def Process.exec (host : Host) (p : Process) : Except Error (List Nat) :=
  (p.execT host).1

/-- `Process::exec` takes `&mut self`; the embedding passes the state
explicitly and returns the wrapped command after the call.  `output()`
does not modify the program or the argument list of the underlying
`Command`, so the post-state carries the same specification. -/
def Process.execS (host : Host) (p : Process) : Except Error (List Nat) × Process :=
  ((p.execT host).1, p)

end Hpm

namespace Main

/-- Models the `Command` subcommand enum of src/main.rs lines 51-60
(src/cli.rs lines 22-31 declare an identical enum). -/
inductive Command where
  | Kill
  | Restart
  | Logout
deriving DecidableEq, Repr

/-- Models `impl Display for Command` (src/main.rs lines 62-70). -/
def Command.display : Command → String
  | .Kill => "Kill"
  | .Restart => "Restart"
  | .Logout => "Logout"

/-- Models the `Error` enum of src/main.rs lines 73-77; `std::io::Error`
payloads are modelled by their display text. -/
inductive Error where
  | FailedToWriteStdout (msg : String)
  | FailedToReadStdin (msg : String)
  | InvalidUserAnswer
deriving DecidableEq, Repr

/-- Models `kill` (src/main.rs lines 122-126): `systemctl poweroff`. -/
def kill : Hpm.Process :=
  ⟨⟨"systemctl", ["poweroff"]⟩⟩

/-- Models `restart` (src/main.rs lines 128-133): `systemctl reboot`. -/
def restart : Hpm.Process :=
  ⟨⟨"systemctl", ["reboot"]⟩⟩

/-- Models `logout` (src/main.rs lines 135-143), with the process
environment passed explicitly.  `std::env::var("USER").expect(..)`
panics when `USER` is absent, before the username argument is added and
before `Process::new` runs: the `none` result models that panic, and no
`Process` is produced. -/
def logout (env : String → Option String) : Option Hpm.Process :=
  match env "USER" with
  | some user => some ⟨⟨"loginctl", ["terminate-user", user]⟩⟩
  | none => none

/-- The fixed menu of src/main.rs line 146. -/
def cmds : List Command :=
  [.Kill, .Restart, .Logout]

/-- The `(index, command)` pairs inserted into `cmd_map` by the loop of
src/main.rs lines 151-154 (`enumerate` indices, each below 3, so the
`as u8` cast is the identity). -/
def cmdPairs : List (Nat × Command) :=
  cmds.enum

/-- Models `cmd_map.remove(&cmd_key)` (src/main.rs line 168): lookup of
the parsed key among the inserted pairs (the keys are distinct, and the
map is dropped right after, so removal behaves as lookup). -/
def cmdMapFind (k : Nat) : Option Command :=
  (cmdPairs.find? (fun ic => ic.1 == k)).map (fun ic => ic.2)

/-- The prompt text accumulated by the loop of src/main.rs lines 151-152
before the `", "` separator is stripped. -/
def promptStrRaw : String :=
  cmds.enum.foldl
    (fun acc ic => acc ++ ", (" ++ toString ic.1 ++ ") " ++ ic.2.display) ""

/-- What `println!` on src/main.rs line 159 writes to standard output:
the heading, the accumulated prompt with its leading `", "` stripped
(`drop 2` models the successful branch of the source's unwrap on that
stripping; `cmds` is nonempty so the separator is present), and the
trailing newline of `println!`. -/
def promptOutput : String :=
  "Select the command you wish to execute:\n" ++ (promptStrRaw.drop 2) ++ "\n"

/-- Rust `char::is_whitespace`: the Unicode `White_Space` property. -/
def rustIsWhitespace (c : Char) : Bool :=
  let n := c.toNat
  decide ((9 ≤ n ∧ n ≤ 13) ∨ n = 32 ∨ n = 0x85 ∨ n = 0xA0 ∨ n = 0x1680 ∨
    (0x2000 ≤ n ∧ n ≤ 0x200A) ∨ n = 0x2028 ∨ n = 0x2029 ∨ n = 0x202F ∨
    n = 0x205F ∨ n = 0x3000)

/-- Models Rust `str::trim` (src/main.rs line 165): strip leading and
trailing whitespace characters. -/
def rustTrim (s : String) : String :=
  String.mk
    (((s.data.dropWhile rustIsWhitespace).reverse.dropWhile rustIsWhitespace).reverse)

/-- Models Rust `str::parse::<u8>`: an optional leading `+`, then one or
more ASCII digits, accumulated left to right; the empty digit string
fails, and a value that does not fit in `u8` fails (overflow).  `none`
models `Err(ParseIntError)`. -/
def parseU8 (s : String) : Option Nat :=
  let cs := s.data
  let digits := match cs with
    | '+' :: rest => rest
    | _ => cs
  match digits with
  | [] => none
  | _ =>
    match digits.foldl
        (fun acc? c => acc?.bind
          (fun acc => if c.isDigit then some (acc * 10 + (c.toNat - 48)) else none))
        (some 0) with
    | none => none
    | some v => if v < 256 then some v else none

/-- Models `interactive` (src/main.rs lines 145-171) applied to the line
read from standard input (the read itself is modelled as succeeding with
that line): the trimmed answer is parsed as a `u8`, a parse failure is
`InvalidUserAnswer`, and a key absent from the command map is
`InvalidUserAnswer`. -/
def interactive (line : String) : Except Error Command :=
  match parseU8 (rustTrim line) with
  | none => .error .InvalidUserAnswer
  | some k =>
    match cmdMapFind k with
    | none => .error .InvalidUserAnswer
    | some c => .ok c

/-- Outcome of `run`: success, a `hpm::process::Error`, a `main::Error`,
or a panic (the `expect` in `logout`). -/
inductive RunResult where
  | ok
  | procErr (e : Hpm.Error)
  | cliErr (e : Error)
  | panicked
deriving DecidableEq, Repr

/-- Observable side effects of one `run` call: the `Process` values
constructed by the dispatcher, the command specifications spawned as
OS-level child processes, the byte blocks written to standard output
from a child's captured stdout, and the prompt texts printed by the
interactive menu. -/
structure RunTrace where
  constructed : List Hpm.Process
  spawns : List CommandSpec
  stdoutWrites : List (List Nat)
  prompts : List String
deriving DecidableEq, Repr

/-- The inputs `run` draws from its surroundings: the parsed
`--interactive` flag and subcommand, the line standard input yields, and
the process environment. -/
structure RunInput where
  interactive : Bool
  command : Option Command
  stdinLine : String
  env : String → Option String

/-- Dispatch and execution shared by the branches of `run` (src/main.rs
lines 107-117): build the `Process` for the selected command, `exec` it,
and on success write the captured stdout bytes to standard output (the
write is modelled as succeeding). -/
def runCmd (host : Host) (env : String → Option String) (cmd : Command) :
    RunResult × RunTrace :=
  match (match cmd with
         | .Kill => some kill
         | .Restart => some restart
         | .Logout => logout env) with
  | none => (.panicked, ⟨[], [], [], []⟩)
  | some p =>
    let r := p.execT host
    let spawned := List.replicate r.2 p.cmd
    match r.1 with
    | .error e => (.procErr e, ⟨[p], spawned, [], []⟩)
    | .ok bytes => (.ok, ⟨[p], spawned, [bytes], []⟩)

/-- Models `run` (src/main.rs lines 96-120): the interactive prompt when
the flag is set, otherwise the given subcommand, otherwise an immediate
`Ok(())`. -/
def run (host : Host) (inp : RunInput) : RunResult × RunTrace :=
  if inp.interactive then
    match interactive inp.stdinLine with
    | .error e => (.cliErr e, ⟨[], [], [], [promptOutput]⟩)
    | .ok cmd =>
      let r := runCmd host inp.env cmd
      (r.1, { r.2 with prompts := promptOutput :: r.2.prompts })
  else
    match inp.command with
    | some cmd => runCmd host inp.env cmd
    | none => (.ok, ⟨[], [], [], []⟩)

end Main

/-- Models the exit-code translation of `main` (src/main.rs lines 16-23)
for a `hpm::Error` escaping `run`: the `u8` handed to `ExitCode::from`. -/
def exitCodeOf : Hpm.Error → Nat
  | .BinaryDoesNotExist _ => 1
  | .FailedToExecProcess _ _ => 1
  | .Exec ecode _ => ecode
  | .Interrupted => 130

namespace Cli

/-- Models `kill` (src/cli.rs lines 93-97). -/
def kill : Hpm.Process :=
  ⟨⟨"systemctl", ["poweroff"]⟩⟩

/-- Models `restart` (src/cli.rs lines 99-104). -/
def restart : Hpm.Process :=
  ⟨⟨"systemctl", ["reboot"]⟩⟩

/-- Models `logout` (src/cli.rs lines 106-115); as in src/main.rs, the
`expect` on a missing `USER` is the `none` case. -/
def logout (env : String → Option String) : Option Hpm.Process :=
  match env "USER" with
  | some user => some ⟨⟨"loginctl", ["terminate-user", user]⟩⟩
  | none => none

/-- Models `run` (src/cli.rs lines 71-91): no interactive branch; with
no subcommand it returns `Ok(())` at once (the `interactive` CLI flag of
src/cli.rs is declared but never read by this `run`).  The subcommand
enum of src/cli.rs is identical to the one of src/main.rs, so
`Main.Command` stands for both. -/
def run (host : Host) (env : String → Option String)
    (command : Option Main.Command) : Main.RunResult × Main.RunTrace :=
  match command with
  | some cmd =>
    match (match cmd with
           | .Kill => some kill
           | .Restart => some restart
           | .Logout => logout env) with
    | none => (.panicked, ⟨[], [], [], []⟩)
    | some p =>
      let r := p.execT host
      let spawned := List.replicate r.2 p.cmd
      match r.1 with
      | .error e => (.procErr e, ⟨[p], spawned, [], []⟩)
      | .ok bytes => (.ok, ⟨[p], spawned, [bytes], []⟩)
  | none => (.ok, ⟨[], [], [], []⟩)

end Cli

/-! ## Claims -/

/-- Claim C1: for every command whose executable name is not resolvable
on the host's search path, `exec` returns `BinaryDoesNotExist` carrying
that executable name, and no child process is spawned (the spawn count
of the run is 0). -/
theorem C1_exec_unresolvable_no_spawn (host : Host) (p : Hpm.Process)
    (h : host.resolves p.get_process_name = false) :
    p.execT host = (.error (.BinaryDoesNotExist p.get_process_name), 0) := by
  simp [Hpm.Process.execT, Hpm.Process.validate, h]

/-- Witness for C1 at a concrete unresolvable name. -/
theorem C1_witness :
    Hpm.Process.execT ⟨fun _ => false, fun _ => .ok ⟨some 0, [], []⟩⟩
        ⟨⟨"this-binary-does-not-exist", []⟩⟩ =
      (.error (.BinaryDoesNotExist "this-binary-does-not-exist"), 0) :=
  C1_exec_unresolvable_no_spawn ⟨fun _ => false, fun _ => .ok ⟨some 0, [], []⟩⟩
    ⟨⟨"this-binary-does-not-exist", []⟩⟩ rfl

/-- Claim C2: for every resolvable command whose child exits with status
0, `exec` returns success carrying exactly the child's stdout bytes; the
captured stderr bytes (`out.stderr`, arbitrary here) do not appear in
the result. -/
theorem C2_exec_success_stdout (host : Host) (p : Hpm.Process) (out : Output)
    (hres : host.resolves p.get_process_name = true)
    (hspawn : host.spawn p.cmd = .ok out)
    (hcode : out.code = some 0) :
    p.exec host = .ok out.stdout := by
  simp [Hpm.Process.exec, Hpm.Process.execT, Hpm.Process.validate, hres, hspawn, hcode]

/-- Witness for C2 at a concrete resolvable command. -/
theorem C2_witness :
    Hpm.Process.exec ⟨fun _ => true, fun _ => .ok ⟨some 0, [104, 105, 10], [9, 9]⟩⟩
        ⟨⟨"ls", []⟩⟩ = .ok [104, 105, 10] :=
  C2_exec_success_stdout ⟨fun _ => true, fun _ => .ok ⟨some 0, [104, 105, 10], [9, 9]⟩⟩
    ⟨⟨"ls", []⟩⟩ ⟨some 0, [104, 105, 10], [9, 9]⟩ rfl rfl rfl

/-- Claim C3: for every resolvable command whose child exits with a
nonzero status code, `exec` fails with `Exec(code, stderr)` where `code`
is the child's actual exit status and `stderr` is exactly the captured
error-stream bytes.  The status is the value of `ExitStatus::code()`,
which on this platform lies in `0..=255`, so the source's `as u8` cast
preserves it. -/
theorem C3_exec_nonzero (host : Host) (p : Hpm.Process) (out : Output) (c : Int)
    (hres : host.resolves p.get_process_name = true)
    (hspawn : host.spawn p.cmd = .ok out)
    (hcode : out.code = some c)
    (hne : c ≠ 0) (hlo : 0 ≤ c) (hhi : c < 256) :
    p.exec host = .error (.Exec c.toNat out.stderr) := by
  simp only [Hpm.Process.exec, Hpm.Process.execT, Hpm.Process.validate, hres,
    if_true, hspawn, hcode, if_neg hne]
  exact congrArg (fun n => Except.error (Hpm.Error.Exec n.toNat out.stderr))
    (Int.emod_eq_of_lt hlo hhi)

/-- Witness for C3 at a concrete failing command. -/
theorem C3_witness :
    Hpm.Process.exec ⟨fun _ => true, fun _ => .ok ⟨some 2, [], [110, 111]⟩⟩
        ⟨⟨"ls", ["this-file-does-not-exist"]⟩⟩ = .error (.Exec 2 [110, 111]) :=
  C3_exec_nonzero ⟨fun _ => true, fun _ => .ok ⟨some 2, [], [110, 111]⟩⟩
    ⟨⟨"ls", ["this-file-does-not-exist"]⟩⟩ ⟨some 2, [], [110, 111]⟩ 2
    rfl rfl rfl (by decide) (by decide) (by decide)

/-- Claim C4: the exit-code translator of `main` maps
`BinaryDoesNotExist` to 1, `FailedToExecProcess` to 1, `Interrupted` to
130, and `Exec` to the stored child exit code unchanged. -/
theorem C4_exit_code_mapping :
    (∀ b, exitCodeOf (.BinaryDoesNotExist b) = 1) ∧
    (∀ b e, exitCodeOf (.FailedToExecProcess b e) = 1) ∧
    exitCodeOf .Interrupted = 130 ∧
    (∀ c v, exitCodeOf (.Exec c v) = c) :=
  ⟨fun _ => rfl, fun _ _ => rfl, rfl, fun _ _ => rfl⟩

/-- Claim C5: formatting an `Exec` failure renders exactly the decoded
stderr text when the captured bytes are valid UTF-8, and is a hard
failure (the `expect` panic, modelled as `none`) when they are not. -/
theorem C5_display_exec (c : Nat) (v : List Nat) :
    (∀ s, Hpm.utf8DecodeStr v = some s → Hpm.Error.display (.Exec c v) = some s) ∧
    (Hpm.utf8DecodeStr v = none → Hpm.Error.display (.Exec c v) = none) :=
  ⟨fun _ h => h, fun h => h⟩

/-- Witness for C5: valid UTF-8 stderr bytes render as their decoding;
the lone byte 255 is invalid UTF-8 and formatting fails hard. -/
theorem C5_witness :
    Hpm.Error.display (.Exec 1 [104, 105]) = some "hi" ∧
    Hpm.Error.display (.Exec 1 [255]) = none :=
  ⟨(C5_display_exec 1 [104, 105]).1 "hi" (by decide),
   (C5_display_exec 1 [255]).2 (by decide)⟩

/-- Claim C6: for every executable name that does not resolve, the
validation pre-check and a full `exec` call fail with errors whose
human-readable texts are equal. -/
theorem C6_validate_exec_display_eq (host : Host) (p : Hpm.Process)
    (h : host.resolves p.get_process_name = false) :
    ∃ e₁ e₂, p.validate host = .error e₁ ∧ p.exec host = .error e₂ ∧
      e₁.display = e₂.display := by
  refine ⟨.BinaryDoesNotExist p.get_process_name,
          .BinaryDoesNotExist p.get_process_name, ?_, ?_, rfl⟩
  · simp [Hpm.Process.validate, h]
  · simp [Hpm.Process.exec, Hpm.Process.execT, Hpm.Process.validate, h]

/-- Witness for C6 at a concrete unresolvable name. -/
theorem C6_witness :
    ∃ e₁ e₂,
      Hpm.Process.validate ⟨fun _ => false, fun _ => .ok ⟨some 0, [], []⟩⟩
          ⟨⟨"this-binary-does-not-exist", []⟩⟩ = .error e₁ ∧
      Hpm.Process.exec ⟨fun _ => false, fun _ => .ok ⟨some 0, [], []⟩⟩
          ⟨⟨"this-binary-does-not-exist", []⟩⟩ = .error e₂ ∧
      e₁.display = e₂.display :=
  C6_validate_exec_display_eq ⟨fun _ => false, fun _ => .ok ⟨some 0, [], []⟩⟩
    ⟨⟨"this-binary-does-not-exist", []⟩⟩ rfl

/-- Claim C7: the dispatcher builds `systemctl poweroff` for kill,
`systemctl reboot` for restart, and `loginctl terminate-user <user>` for
logout with the username read from `USER`; when `USER` is absent, logout
fails fast and no command specification is produced. -/
theorem C7_dispatcher (env : String → Option String) :
    Main.kill = ⟨⟨"systemctl", ["poweroff"]⟩⟩ ∧
    Main.restart = ⟨⟨"systemctl", ["reboot"]⟩⟩ ∧
    (∀ u, env "USER" = some u →
      Main.logout env = some ⟨⟨"loginctl", ["terminate-user", u]⟩⟩) ∧
    (env "USER" = none → Main.logout env = none) :=
  ⟨rfl, rfl,
   fun u hu => by simp [Main.logout, hu],
   fun h => by simp [Main.logout, h]⟩

/-- Witness for C7: a present `USER` yields the loginctl specification,
an absent one yields no specification. -/
theorem C7_witness :
    Main.logout (fun k => if k = "USER" then some "alice" else none) =
      some ⟨⟨"loginctl", ["terminate-user", "alice"]⟩⟩ ∧
    Main.logout (fun _ => none) = none :=
  ⟨(C7_dispatcher (fun k => if k = "USER" then some "alice" else none)).2.2.1
      "alice" (by simp),
   (C7_dispatcher (fun _ => none)).2.2.2 rfl⟩

/-- The interactive command map holds exactly the keys 0, 1, 2. -/
theorem cmdMapFind_eq_none_of_not_menu : ∀ k : Nat, k ≠ 0 → k ≠ 1 → k ≠ 2 →
    Main.cmdMapFind k = none
  | 0, h0, _, _ => absurd rfl h0
  | 1, _, h1, _ => absurd rfl h1
  | 2, _, _, h2 => absurd rfl h2
  | _ + 3, _, _, _ => rfl

/-- Claim C8: in interactive mode, every input line whose trimmed
content does not parse as one of the menu indices 0, 1 or 2 makes `run`
fail with `InvalidUserAnswer`; no command is selected, nothing is
constructed or spawned, and only the menu prompt was printed. -/
theorem C8_interactive_invalid (host : Host) (inp : Main.RunInput)
    (hi : inp.interactive = true)
    (h0 : Main.parseU8 (Main.rustTrim inp.stdinLine) ≠ some 0)
    (h1 : Main.parseU8 (Main.rustTrim inp.stdinLine) ≠ some 1)
    (h2 : Main.parseU8 (Main.rustTrim inp.stdinLine) ≠ some 2) :
    Main.run host inp =
      (.cliErr .InvalidUserAnswer, ⟨[], [], [], [Main.promptOutput]⟩) := by
  have hint : Main.interactive inp.stdinLine = .error .InvalidUserAnswer := by
    rcases hk : Main.parseU8 (Main.rustTrim inp.stdinLine) with _ | k
    · simp [Main.interactive, hk]
    · have hk0 : k ≠ 0 := fun e => h0 (e ▸ hk)
      have hk1 : k ≠ 1 := fun e => h1 (e ▸ hk)
      have hk2 : k ≠ 2 := fun e => h2 (e ▸ hk)
      simp [Main.interactive, hk, cmdMapFind_eq_none_of_not_menu k hk0 hk1 hk2]
  simp [Main.run, hi, hint]

/-- Witness for C8: the line `"3"` parses but is not a menu index. -/
theorem C8_witness :
    Main.run ⟨fun _ => false, fun _ => .ok ⟨some 0, [], []⟩⟩
        ⟨true, none, "3", fun _ => none⟩ =
      (.cliErr .InvalidUserAnswer, ⟨[], [], [], [Main.promptOutput]⟩) :=
  C8_interactive_invalid ⟨fun _ => false, fun _ => .ok ⟨some 0, [], []⟩⟩
    ⟨true, none, "3", fun _ => none⟩ rfl (by decide) (by decide) (by decide)

/-- Claim C9: an `exec` call leaves the wrapped command specification
unchanged — the program name and argument list after the call are those
before it, and running the post-state again is the same execution. -/
theorem C9_exec_frame (host : Host) (p : Hpm.Process) :
    (p.execS host).2.get_process_name = p.get_process_name ∧
    (p.execS host).2.cmd.args = p.cmd.args ∧
    (p.execS host).2.execS host = p.execS host :=
  ⟨rfl, rfl, rfl⟩

/-- Claim C10: with no subcommand and no interactive flag, `run` (both
the src/main.rs and the src/cli.rs variant) succeeds immediately: no
`Process` is constructed, nothing is spawned, and nothing is written to
standard output. -/
theorem C10_run_no_command (host : Host) (inp : Main.RunInput)
    (hi : inp.interactive = false) (hc : inp.command = none) :
    Main.run host inp = (.ok, ⟨[], [], [], []⟩) ∧
    Cli.run host inp.env none = (.ok, ⟨[], [], [], []⟩) := by
  refine ⟨?_, rfl⟩
  simp [Main.run, hi, hc]

/-- Witness for C10 at a concrete empty invocation. -/
theorem C10_witness :
    Main.run ⟨fun _ => false, fun _ => .ok ⟨some 0, [], []⟩⟩
        ⟨false, none, "", fun _ => none⟩ = (.ok, ⟨[], [], [], []⟩) ∧
    Cli.run ⟨fun _ => false, fun _ => .ok ⟨some 0, [], []⟩⟩ (fun _ => none) none =
      (.ok, ⟨[], [], [], []⟩) :=
  C10_run_no_command ⟨fun _ => false, fun _ => .ok ⟨some 0, [], []⟩⟩
    ⟨false, none, "", fun _ => none⟩ rfl rfl
